import Mathlib

/-
  Verification development for the pdf-risk-analyzer repository.

  The repository contains two analyzers:
    * document_analyzer_simple.py  (SimpleDocumentAnalyzer)   -> namespace Simple
    * document_analyzer.py         (MultimodalDocumentAnalyzer) -> namespace Multi

  Python dictionaries with optional keys are modelled as structures with
  Option-typed fields; `dict.get(k, d)` becomes `field.getD d`.  Python ints
  are Nat (all scores in the source are built from non-negative counts),
  float arithmetic on scores is exact over Rat, and the one use of a square
  root (np.std in analyze_layout_consistency) is modelled over Real.
  Python `re` patterns are embedded by a small backtracking matcher that
  mirrors greedy, leftmost, alternative-in-order semantics.
-/

namespace PdfRisk

/-! ### Python string helpers -/

/-- Python's `needle in hay` for strings: substring containment. -/
def infixOf (needle : List Char) : List Char → Bool
  | [] => needle.isEmpty
  | c :: t => needle.isPrefixOf (c :: t) || infixOf needle t

/-- Substring containment at `String` level. -/
def strContains (hay needle : String) : Bool :=
  infixOf needle.toList hay.toList

/-- Python's `hay.count(needle)`: non-overlapping occurrences, scanning left
to right (for a non-empty needle; the source only counts fixed non-empty
keywords). -/
def countOcc (needle : List Char) (hay : List Char) : ℕ :=
  match hay with
  | [] => 0
  | c :: t =>
    if needle ≠ [] ∧ needle.isPrefixOf (c :: t) then
      countOcc needle (t.drop (needle.length - 1)) + 1
    else
      countOcc needle t
termination_by hay.length
decreasing_by
  · simp only [List.length_cons, List.length_drop]
    omega
  · simp only [List.length_cons]
    omega

/-- Python's `str.lower()` (per-character lowering; all the source's
keywords and indicators are ASCII). -/
def lowerStr (s : String) : String := String.mk (s.toList.map Char.toLower)

/-- Split at every occurrence of a non-empty separator, keeping empty
pieces: the character-list core of Python's `str.split(sep)`. -/
def splitOnL (sep : List Char) (l : List Char) : List (List Char) :=
  match l with
  | [] => [[]]
  | c :: t =>
    if sep ≠ [] ∧ sep.isPrefixOf (c :: t) then
      [] :: splitOnL sep (t.drop (sep.length - 1))
    else
      (splitOnL sep t).modifyHead (fun h => c :: h)
termination_by l.length
decreasing_by
  · simp only [List.length_cons, List.length_drop]
    omega
  · simp only [List.length_cons]
    omega

/-- Python's `str.split(sep)` for a non-empty separator. -/
def pySplitOn (sep : String) (s : String) : List String :=
  (splitOnL sep.toList s.toList).map String.mk

/-- Split at every character satisfying a predicate, keeping empty pieces. -/
def splitPredL (p : Char → Bool) : List Char → List (List Char)
  | [] => [[]]
  | c :: t =>
    if p c then [] :: splitPredL p t
    else (splitPredL p t).modifyHead (fun h => c :: h)

/-- Python's `str.split()` with no argument: split on whitespace runs,
dropping empty pieces. -/
def pyWords (s : String) : List String :=
  ((splitPredL Char.isWhitespace s.toList).map String.mk).filter (fun w => w ≠ "")

/-- Python's `str.strip()`: drop leading and trailing whitespace. -/
def pyStrip (s : String) : String :=
  String.mk (((s.toList.dropWhile Char.isWhitespace).reverse.dropWhile Char.isWhitespace).reverse)

/-- Python's `str.endswith(suffix)`. -/
def strEndsWith (s suffix : String) : Bool :=
  suffix.toList.isSuffixOf s.toList

/-- Python slice `text[a:b]` over character positions. -/
def sliceStr (s : String) (a b : ℕ) : String :=
  String.mk ((s.toList.drop a).take (b - a))

/-! ### A small regular-expression engine

Mirrors the fragment of Python `re` used by the source: character classes,
concatenation, ordered alternation, greedy `*`/`+`/`?`, bounded repetition
(unfolded as longest-first alternation, matching greedy semantics) and the
word boundary `\b`. -/

inductive Re where
  | eps
  | cls (p : Char → Bool)
  | cat (a b : Re)
  | alt (a b : Re)
  | star (a : Re)
  | wb

def Re.lit (c : Char) : Re := .cls (fun x => x = c)

/-- A case-insensitive literal character (the source compiles most patterns
with `re.IGNORECASE`). -/
def Re.litci (c : Char) : Re := .cls (fun x => x.toLower = c.toLower)

def Re.opt (a : Re) : Re := .alt a .eps

def Re.plus (a : Re) : Re := .cat a (.star a)

/-- Case-insensitive literal word. -/
def Re.strci (s : String) : Re :=
  s.toList.foldr (fun c r => .cat (.litci c) r) .eps

def Re.size : Re → ℕ
  | .eps => 1
  | .cls _ => 1
  | .cat a b => a.size + b.size + 1
  | .alt a b => a.size + b.size + 1
  | .star a => a.size + 1
  | .wb => 1

def isWordChar (c : Char) : Bool := c.isAlphanum || c = '_'

/-- Backtracking matcher in continuation style.  `p` is the character just
before the current position (for `\b`), `s` the rest of the input; on
success the continuation receives the new previous character and remaining
input.  Fuel bounds the search; all concrete uses get generous fuel. -/
def reMatch : ℕ → Re → Option Char → List Char →
    (Option Char → List Char → Option (Option Char × List Char)) →
    Option (Option Char × List Char)
  | 0, _, _, _, _ => none
  | _ + 1, .eps, p, s, k => k p s
  | _ + 1, .cls f, _, s, k =>
    match s with
    | [] => none
    | c :: cs => if f c then k (some c) cs else none
  | n + 1, .cat a b, p, s, k =>
    reMatch n a p s (fun p2 s2 => reMatch n b p2 s2 k)
  | n + 1, .alt a b, p, s, k =>
    match reMatch n a p s k with
    | some r => some r
    | none => reMatch n b p s k
  | n + 1, .star a, p, s, k =>
    match reMatch n a p s (fun p2 s2 => reMatch n (.star a) p2 s2 k) with
    | some r => some r
    | none => k p s
  | _ + 1, .wb, p, s, k =>
    let pw := match p with | some c => isWordChar c | none => false
    let nw := match s with | c :: _ => isWordChar c | [] => false
    if pw ≠ nw then k p s else none

def matchFuel (re : Re) (s : List Char) : ℕ :=
  (s.length + 2) * (re.size + 2) * 8 + 64

/-- One match attempt at the current position; returns the remaining suffix
after the (greedy, leftmost) match. -/
def reMatchHere (re : Re) (p : Option Char) (s : List Char) :
    Option (Option Char × List Char) :=
  reMatch (matchFuel re s) re p s (fun q r => some (q, r))

/-- Python `re.finditer`: scan left to right, emit non-overlapping match
spans `(start, end)` in character positions. -/
def findIterAux (re : Re) : ℕ → ℕ → Option Char → List Char → List (ℕ × ℕ)
  | 0, _, _, _ => []
  | n + 1, pos, p, s =>
    match s with
    | [] => []
    | c :: cs =>
      match reMatchHere re p s with
      | none => findIterAux re n (pos + 1) (some c) cs
      | some (_, rest) =>
        let mlen := s.length - rest.length
        if mlen = 0 then
          findIterAux re n (pos + 1) (some c) cs
        else
          (pos, pos + mlen) :: findIterAux re n (pos + mlen) ((s.take mlen).getLast?) rest

def finditer (re : Re) (text : String) : List (ℕ × ℕ) :=
  findIterAux re (text.length + 1) 0 none text.toList

/-- Python `re.findall` for patterns without capturing groups: the matched
substrings, in order. -/
def reFindAll (re : Re) (text : String) : List String :=
  (finditer re text).map (fun ab => sliceStr text ab.1 ab.2)

/-! ### Embeddings of the concrete patterns of the source

All compiled with `re.IGNORECASE` except the email pattern. -/

/-- `\d` (ASCII, as in the source's inputs). -/
def reDigit : Re := .cls Char.isDigit

/-- `[\d,]`. -/
def reDigitComma : Re := .cls (fun c => c.isDigit || c = ',')

/-- `\s`. -/
def reWs : Re := .cls Char.isWhitespace

/-- `\s+`. -/
def reWsPlus : Re := Re.plus reWs

/-- A case-insensitive phrase `w1\s+w2\s+...`, as in the high-risk
patterns of the simplified analyzer. -/
def phraseRe : List String → Re
  | [] => .eps
  | [w] => Re.strci w
  | w :: ws => .cat (Re.strci w) (.cat reWsPlus (phraseRe ws))

/-- `\$[\d,]+\.?\d*[MKB]?` (IGNORECASE, so `[MKB]` also matches `mkb`). -/
def moneyRe1 : Re :=
  .cat (Re.lit '$')
    (.cat (Re.plus reDigitComma)
      (.cat (Re.opt (Re.lit '.'))
        (.cat (.star reDigit)
          (Re.opt (.cls (fun c => c.toLower = 'm' || c.toLower = 'k' || c.toLower = 'b'))))))

/-- Ordered alternation `r1|r2|...` (left to right, as Python tries them). -/
def altList : List Re → Re
  | [] => .eps
  | [r] => r
  | r :: rs => .alt r (altList rs)

/-- `\d+\s*(?:...)` for an ordered list of unit words. -/
def numUnitRe (units : List String) : Re :=
  .cat (Re.plus reDigit)
    (.cat (.star reWs) (altList (units.map Re.strci)))

/-- `\d+\s*(?:million|thousand|billion|dollars|usd)` (simplified analyzer). -/
def moneyRe2 : Re := numUnitRe ["million", "thousand", "billion", "dollars", "usd"]

/-- `USD\s*[\d,]+\.?\d*`. -/
def moneyRe3 : Re :=
  .cat (Re.strci "USD")
    (.cat (.star reWs)
      (.cat (Re.plus reDigitComma)
        (.cat (Re.opt (Re.lit '.')) (.star reDigit))))

/-- `[€£¥]\s*[\d,]+\.?\d*`. -/
def moneyRe4 : Re :=
  .cat (.cls (fun c => c = '€' || c = '£' || c = '¥'))
    (.cat (.star reWs)
      (.cat (Re.plus reDigitComma)
        (.cat (Re.opt (Re.lit '.')) (.star reDigit))))

/-- Greedy `r{1,2}`: longest alternative first. -/
def rep12 (r : Re) : Re := .alt (.cat r r) r

/-- Greedy `r{2,4}`. -/
def rep24 (r : Re) : Re :=
  .alt (.cat r (.cat r (.cat r r))) (.alt (.cat r (.cat r r)) (.cat r r))

/-- Greedy `r{4}`. -/
def rep4 (r : Re) : Re := .cat r (.cat r (.cat r r))

/-- Greedy `r{2,}`. -/
def rep2plus (r : Re) : Re := .cat r (Re.plus r)

/-- The date-separator class: a dash or a forward slash. -/
def reDateSep : Re := .cls (fun c => c = '-' || c = '/')

/-- The date pattern of the simplified analyzer:
`\b(?:\d{1,2} sep \d{1,2} sep \d{2,4}|\d{4} sep \d{1,2} sep \d{1,2}|(?:Jan|...|Dec)[a-z]* \d{1,2},? \d{4})\b`
where `sep` is the dash-or-slash class (IGNORECASE, so `[a-z]` also matches
capitals). -/
def dateRe : Re :=
  let numA : Re :=
    .cat (rep12 reDigit) (.cat reDateSep
      (.cat (rep12 reDigit) (.cat reDateSep (rep24 reDigit))))
  let numB : Re :=
    .cat (rep4 reDigit) (.cat reDateSep
      (.cat (rep12 reDigit) (.cat reDateSep (rep12 reDigit))))
  let months : List String :=
    ["Jan", "Feb", "Mar", "Apr", "May", "Jun", "Jul", "Aug", "Sep", "Oct", "Nov", "Dec"]
  let monthAlt : Re := altList (months.map Re.strci)
  let nameC : Re :=
    .cat monthAlt (.cat (.star (.cls Char.isAlpha))
      (.cat (Re.lit ' ') (.cat (rep12 reDigit)
        (.cat (Re.opt (Re.lit ',')) (.cat (Re.lit ' ') (rep4 reDigit))))))
  .cat .wb (.cat (.alt numA (.alt numB nameC)) .wb)

/-- The email pattern `\b[A-Za-z0-9._%+-]+@[A-Za-z0-9.-]+\.[A-Z|a-z]{2,}\b`
(no IGNORECASE; note the literal `|` inside the final class, as written in
the source). -/
def emailRe : Re :=
  let localC : Re := .cls (fun c => c.isAlphanum || c = '.' || c = '_' || c = '%' || c = '+' || c = '-')
  let domC : Re := .cls (fun c => c.isAlphanum || c = '.' || c = '-')
  let tldC : Re := .cls (fun c => ('A' ≤ c ∧ c ≤ 'Z') || c = '|' || ('a' ≤ c ∧ c ≤ 'z'))
  .cat .wb (.cat (Re.plus localC)
    (.cat (Re.lit '@') (.cat (Re.plus domC)
      (.cat (Re.lit '.') (.cat (rep2plus tldC) .wb)))))

namespace Simple

/-! ### document_analyzer_simple.py — SimpleDocumentAnalyzer -/

/-- `self.risk_keywords` of `SimpleDocumentAnalyzer.__init__`. -/
def risk_keywords : List String :=
  ["liability", "penalty", "breach", "termination", "indemnify",
   "damages", "lawsuit", "arbitration", "confidential", "proprietary",
   "non-compete", "exclusive", "irrevocable", "perpetual", "waive",
   "default", "violation", "prosecution", "negligence", "warranty"]

/-- `self.high_risk_patterns`, each paired with its compiled form. -/
def high_risk_patterns : List (String × Re) :=
  [("unlimited\\s+liability", phraseRe ["unlimited", "liability"]),
   ("personal\\s+guarantee", phraseRe ["personal", "guarantee"]),
   ("joint\\s+and\\s+several", phraseRe ["joint", "and", "several"]),
   ("automatic\\s+renewal", phraseRe ["automatic", "renewal"]),
   ("no\\s+right\\s+to\\s+terminate", phraseRe ["no", "right", "to", "terminate"]),
   ("waive\\s+all\\s+rights", phraseRe ["waive", "all", "rights"])]

/-- The four monetary-amount patterns, in the order they are applied. -/
def money_patterns : List Re := [moneyRe1, moneyRe2, moneyRe3, moneyRe4]

/-- The `signature_indicators` literal list of `extract_text_features`. -/
def signature_indicator_list : List String :=
  ["signature", "signed by", "authorized signature", "/s/", "by:", "name:"]

/-- One element of the `high_risk_sections` list: the dicts appended by
`find_high_risk_sections`. -/
structure RiskSection where
  pattern : String
  context : String
  risk_level : String
deriving DecidableEq, Repr

/-- Distinct risk keywords present in a paragraph:
`sum(1 for keyword in self.risk_keywords if keyword in para_lower)`. -/
def kwDistinct (para : String) : ℕ :=
  (risk_keywords.filter (fun k => strContains (lowerStr para) k)).length

/-- First pass of `find_high_risk_sections`: every match of every high-risk
pattern, with a ±100-character (stripped) context window, severity HIGH. -/
def hrsPass1 (text : String) : List RiskSection :=
  high_risk_patterns.flatMap (fun pr =>
    (finditer pr.2 text).map (fun ab =>
      { pattern := pr.1,
        context := pyStrip (sliceStr text (ab.1 - 100) (min text.length (ab.2 + 100))),
        risk_level := "HIGH" }))

/-- Second pass: blank-line-delimited paragraphs with at least 3 distinct
keyword hits. -/
def hrsPass2 (text : String) : List RiskSection :=
  (pySplitOn "\n\n" text).filterMap (fun para =>
    let c := kwDistinct para
    if 3 ≤ c then
      some { pattern := toString c ++ " risk keywords",
             context := if 300 < para.length then String.mk (para.toList.take 300) ++ "..." else para,
             risk_level := if c < 5 then "MEDIUM" else "HIGH" }
    else none)

/-- `find_high_risk_sections`: both passes in order, truncated to 10. -/
def find_high_risk_sections (text : String) : List RiskSection :=
  (hrsPass1 text ++ hrsPass2 text).take 10

/-- The dictionary returned by `extract_text_features`.  Optional fields
model keys that are absent in the error-branch dictionary. -/
structure TextFeatures where
  error : Option String := none
  total_characters : Option ℕ := none
  total_words : Option ℕ := none
  page_count : Option ℕ := none
  risk_keywords_found : Option ℕ := none
  keyword_breakdown : Option (List (String × ℕ)) := none
  monetary_amounts : Option (List String) := none
  dates_found : Option (List String) := none
  emails_found : Option (List String) := none
  signature_indicators : Option ℕ := none
  high_risk_sections : Option (List RiskSection) := none
deriving DecidableEq, Repr

/-- Raw PDF metadata as exposed by `PyPDF2` (`reader.metadata` can be absent,
and each field can be absent). -/
structure PdfMeta where
  title : Option String := none
  author : Option String := none
  subject : Option String := none
  creator : Option String := none
  producer : Option String := none
  creation_date : Option String := none
  modification_date : Option String := none
deriving DecidableEq, Repr

/-- The outcome of opening and parsing the PDF, the analyzer's collaborator
boundary: parsing either raises (corrupt bytes) or yields per-page extracted
text plus metadata. -/
inductive PdfInput where
  | parseError (msg : String)
  | parsed (pages : List String) (meta : Option PdfMeta) (encrypted : Bool)
deriving DecidableEq, Repr

/-- The dictionary returned by `extract_metadata`. -/
structure Metadata where
  error : Option String := none
  pages : Option ℕ := none
  title : Option String := none
  author : Option String := none
  subject : Option String := none
  creator : Option String := none
  producer : Option String := none
  creation_date : Option String := none
  modification_date : Option String := none
  encrypted : Option Bool := none
deriving DecidableEq, Repr

/-- `str(metadata.f) if metadata and metadata.f else 'Unknown'` (Python
truthiness: a missing metadata object, a missing field or an empty string
all fall back to `'Unknown'`). -/
def metaField (meta : Option PdfMeta) (f : PdfMeta → Option String) : String :=
  match meta with
  | none => "Unknown"
  | some m =>
    match f m with
    | some v => if v ≠ "" then v else "Unknown"
    | none => "Unknown"

/-- `extract_metadata`: any parse failure is caught and converted into an
error dictionary. -/
def extract_metadata (input : PdfInput) : Metadata :=
  match input with
  | .parseError msg => { error := some msg }
  | .parsed pages meta encrypted =>
    { pages := some pages.length,
      title := some (metaField meta PdfMeta.title),
      author := some (metaField meta PdfMeta.author),
      subject := some (metaField meta PdfMeta.subject),
      creator := some (metaField meta PdfMeta.creator),
      producer := some (metaField meta PdfMeta.producer),
      creation_date := some (metaField meta PdfMeta.creation_date),
      modification_date := some (metaField meta PdfMeta.modification_date),
      encrypted := some encrypted }

/-- The full text assembled by `extract_text_features`: each non-empty page
text followed by a newline (`if page_text:` is Python truthiness). -/
def fullText (pages : List String) : String :=
  pages.foldl (fun acc p => if p ≠ "" then acc ++ p ++ "\n" else acc) ""

/-- `extract_text_features`: the whole body runs under `try`; a parse
failure yields `{'error': str(e), 'risk_keywords_found': 0}`. -/
def extract_text_features (input : PdfInput) : TextFeatures :=
  match input with
  | .parseError msg => { error := some msg, risk_keywords_found := some 0 }
  | .parsed pages _ _ =>
    let full_text := fullText pages
    let text_lower := lowerStr full_text
    let keyword_counts : List (String × ℕ) :=
      risk_keywords.filterMap (fun k =>
        let c := countOcc k.toList text_lower.toList
        if 0 < c then some (k, c) else none)
    let total_risk_keywords := (keyword_counts.map (fun p => p.2)).sum
    let monetary_amounts := money_patterns.flatMap (fun re => reFindAll re full_text)
    let dates_found := reFindAll dateRe full_text
    let emails_found := reFindAll emailRe full_text
    let signature_count :=
      (signature_indicator_list.filter (fun ind => strContains text_lower ind)).length
    { total_characters := some full_text.length,
      total_words := some (pyWords full_text).length,
      page_count := some pages.length,
      risk_keywords_found := some total_risk_keywords,
      keyword_breakdown := some keyword_counts,
      monetary_amounts := some (monetary_amounts.take 10),
      dates_found := some (dates_found.take 10),
      emails_found := some (emails_found.take 5),
      signature_indicators := some signature_count,
      high_risk_sections := some (find_high_risk_sections full_text) }

/-- The dictionary built by `assess_risks`. -/
structure RiskScores where
  keyword_risk : ℕ
  financial_risk : ℕ
  compliance_risk : ℕ
  signature_risk : ℕ
  overall_risk : ℕ
  risk_level : String
deriving DecidableEq, Repr

/-- The qualifying test of the financial-risk override:
`'million' in amount.lower() or 'M' in amount`. -/
def millionOrM (amount : String) : Bool :=
  strContains (lowerStr amount) "million" || strContains amount "M"

/-- `assess_risks`. -/
def assess_risks (text_analysis : TextFeatures) : RiskScores :=
  let keyword_count := text_analysis.risk_keywords_found.getD 0
  let keyword_risk := min 40 (keyword_count * 2)
  let monetary_amounts := text_analysis.monetary_amounts.getD []
  let financial_risk :=
    if monetary_amounts.isEmpty then 0
    else if monetary_amounts.any millionOrM then 30
    else min 30 (monetary_amounts.length * 5)
  let high_risk_sections := text_analysis.high_risk_sections.getD []
  let compliance_risk := min 20 (high_risk_sections.length * 4)
  let signature_risk := if text_analysis.signature_indicators.getD 0 = 0 then 10 else 0
  let overall_risk := keyword_risk + financial_risk + compliance_risk + signature_risk
  let risk_level :=
    if 70 ≤ overall_risk then "HIGH"
    else if 40 ≤ overall_risk then "MEDIUM"
    else "LOW"
  { keyword_risk := keyword_risk, financial_risk := financial_risk,
    compliance_risk := compliance_risk, signature_risk := signature_risk,
    overall_risk := overall_risk, risk_level := risk_level }

/-- The recommendation strings of `generate_recommendations`. -/
def recHigh1 : String := "⚠️ HIGH RISK: Strongly recommend legal review before signing"
def recHigh2 : String := "🚨 Multiple risk factors detected - proceed with extreme caution"
def recMed1 : String := "⚡ MEDIUM RISK: Review highlighted sections carefully"
def recMed2 : String := "💡 Consider consulting legal counsel for specific clauses"
def recLow : String := "✅ LOW RISK: Document appears standard, but always review before signing"
def recSig : String := "📝 No signature indicators found - ensure proper execution"
def recFin : String := "💰 High financial exposure detected - verify all monetary commitments"
def recComp : String := "⚖️ Multiple compliance concerns - ensure regulatory alignment"
def recSect : String := "🔍 Numerous high-risk sections found - detailed review essential"
def recInd : String := "🛡️ Indemnification clauses present - review liability exposure"
def recTerm : String := "🚪 Review termination clauses and exit strategies"
def recConf : String := "🔒 Confidentiality obligations present - ensure compliance capability"

/-- Key membership in the `keyword_breakdown` dictionary. -/
def kbHas (kb : List (String × ℕ)) (k : String) : Bool :=
  kb.any (fun p => p.1 = k)

/-- `generate_recommendations`, mirroring the sequential appends of the
source. -/
def generate_recommendations (risk_assessment : RiskScores) (text_analysis : TextFeatures) :
    List String :=
  let recs : List String := []
  let recs :=
    if risk_assessment.risk_level = "HIGH" then recs ++ [recHigh1] ++ [recHigh2]
    else if risk_assessment.risk_level = "MEDIUM" then recs ++ [recMed1] ++ [recMed2]
    else recs ++ [recLow]
  let recs := recs ++ (if 0 < risk_assessment.signature_risk then [recSig] else [])
  let recs := recs ++ (if 20 ≤ risk_assessment.financial_risk then [recFin] else [])
  let recs := recs ++ (if 15 ≤ risk_assessment.compliance_risk then [recComp] else [])
  let recs :=
    recs ++ (if 5 < (text_analysis.high_risk_sections.getD []).length then [recSect] else [])
  let kb := text_analysis.keyword_breakdown.getD []
  let recs :=
    recs ++ (if kbHas kb "indemnify" || kbHas kb "indemnification" then [recInd] else [])
  let recs := recs ++ (if kbHas kb "termination" then [recTerm] else [])
  let recs :=
    recs ++ (if kbHas kb "confidential" || kbHas kb "proprietary" then [recConf] else [])
  recs

/-- The result dictionary of `analyze_document` (filename and timestamp are
I/O plumbing and omitted). -/
structure AnalysisResult where
  metadata : Metadata
  text_analysis : TextFeatures
  risk_assessment : RiskScores
  recommendations : List String
deriving DecidableEq, Repr

/-- `analyze_document`: runs the four stages in order; none of them can
raise (each stage catches its own failures). -/
def analyze_document (input : PdfInput) : AnalysisResult :=
  let metadata := extract_metadata input
  let text_analysis := extract_text_features input
  let risk_assessment := assess_risks text_analysis
  let recommendations := generate_recommendations risk_assessment text_analysis
  { metadata := metadata, text_analysis := text_analysis,
    risk_assessment := risk_assessment, recommendations := recommendations }

end Simple

namespace Multi

/-! ### document_analyzer.py — MultimodalDocumentAnalyzer -/

/-- `self.risk_keywords` of `MultimodalDocumentAnalyzer.__init__`. -/
def risk_keywords : List String :=
  ["liability", "penalty", "breach", "termination", "indemnify",
   "damages", "lawsuit", "arbitration", "confidential", "proprietary",
   "non-compete", "exclusive", "irrevocable", "perpetual"]

/-- The single monetary pattern
`\$[\d,]+\.?\d*[MKB]?|\d+\s*(?:million|thousand|billion)` (IGNORECASE). -/
def money_pattern : Re :=
  .alt moneyRe1 (numUnitRe ["million", "thousand", "billion"])

/-- The full text assembled by the multimodal `extract_text_features`:
every page's text followed by a newline (no truthiness check here). -/
def fullText (pages : List String) : String :=
  pages.foldl (fun acc p => acc ++ p ++ "\n") ""

/-- The multimodal `find_high_risk_sections`: line-based, a line with at
least 2 keyword hits yields the surrounding lines joined by spaces,
truncated to 200 characters with an unconditional ellipsis; top 3. -/
def find_high_risk_sections (text : String) : List String :=
  let lines := pySplitOn "\n" text
  (lines.enum.filterMap (fun il =>
    let i := il.1
    let line := il.2
    let risk_count := (risk_keywords.filter (fun k => strContains (lowerStr line) k)).length
    if 2 ≤ risk_count then
      let context :=
        String.intercalate " " ((lines.drop (i - 1)).take (min lines.length (i + 2) - (i - 1)))
      some (String.mk (context.toList.take 200) ++ "...")
    else none)).take 3

/-- The dictionary returned by the multimodal `extract_text_features`; it
has no failure branch, so every key is always present and the fields are
plain. -/
structure TextFeatures where
  page_count : ℕ
  total_words : ℕ
  risk_keywords_found : ℕ
  monetary_amounts : List String
  text_risk_score : ℕ
  high_risk_sections : List String
deriving DecidableEq, Repr

/-- The multimodal `extract_text_features` on the per-page texts delivered
by the PDF parser. -/
def extract_text_features (pages : List String) : TextFeatures :=
  let full_text := fullText pages
  let risk_keyword_count :=
    (risk_keywords.map (fun k => countOcc k.toList (lowerStr full_text).toList)).sum
  let monetary_amounts := reFindAll money_pattern full_text
  let text_risk_score := min 100 (risk_keyword_count * 5)
  { page_count := pages.length,
    total_words := (pyWords full_text).length,
    risk_keywords_found := risk_keyword_count,
    monetary_amounts := monetary_amounts.take 5,
    text_risk_score := text_risk_score,
    high_risk_sections := find_high_risk_sections full_text }

/-- A contour candidate as delivered by the black-box detector
(`cv2.findContours` plus `cv2.contourArea` / `cv2.boundingRect`). -/
structure Contour where
  area : ℚ
  x : ℕ
  y : ℕ
  w : ℕ
  h : ℕ
deriving DecidableEq, Repr

/-- `detect_signature_regions`: keep contours with area above 5000 whose
bounding-box aspect ratio lies in [2, 6]. -/
def detect_signature_regions (contours : List Contour) : List (ℕ × ℕ × ℕ × ℕ) :=
  contours.filterMap (fun c =>
    if 5000 < c.area then
      let aspect_ratio : ℚ := if 0 < c.h then (c.w : ℚ) / (c.h : ℚ) else 0
      if 2 ≤ aspect_ratio ∧ aspect_ratio ≤ 6 then some (c.x, c.y, c.w, c.h) else none
    else none)

/-- `detect_stamp_regions`: `cv2.HoughCircles` returns `None` or an array
of circles; every returned circle is kept. -/
def detect_stamp_regions (circles : Option (List (ℕ × ℕ × ℕ))) : List (ℕ × ℕ × ℕ) :=
  match circles with
  | some cs => cs
  | none => []

/-- `cv2.threshold(gray, 200, 255, cv2.THRESH_BINARY_INV)`: pixels at most
the threshold become `maxval`, the rest 0. -/
def thresholdBinaryInv (thresh maxval : ℕ) (img : List (List ℕ)) : List (List ℕ) :=
  img.map (fun row => row.map (fun v => if thresh < v then 0 else maxval))

/-- `np.mean` of a 2-D array: sum of entries over their number (real
division; for the degenerate empty case both the code and the model flow
into the guarded branch of the consistency formula). -/
noncomputable def matMean (m : List (List ℕ)) : ℝ :=
  (((m.map (fun r => r.sum)).sum : ℕ) : ℝ) / (((m.map (fun r => r.length)).sum : ℕ) : ℝ)

/-- A rectangular sub-matrix `m[r1:r2, c1:c2]`. -/
def subMat (m : List (List ℕ)) (r1 r2 c1 c2 : ℕ) : List (List ℕ) :=
  ((m.drop r1).take (r2 - r1)).map (fun row => (row.drop c1).take (c2 - c1))

/-- The four quadrant ink densities of `analyze_layout_consistency`:
binarize at 200, split into quadrants, take `np.mean(q) / 255` for each. -/
noncomputable def quadDensities (img : List (List ℕ)) : List ℝ :=
  let binary := thresholdBinaryInv 200 255 img
  let h := binary.length
  let w := (binary.headD []).length
  let quadrants := [subMat binary 0 (h / 2) 0 (w / 2),
                    subMat binary 0 (h / 2) (w / 2) w,
                    subMat binary (h / 2) h 0 (w / 2),
                    subMat binary (h / 2) h (w / 2) w]
  quadrants.map (fun q => matMean q / 255)

/-- `np.mean` of a vector. -/
noncomputable def npMeanR (l : List ℝ) : ℝ := l.sum / (l.length : ℝ)

/-- `np.std`: the population standard deviation. -/
noncomputable def npStdR (l : List ℝ) : ℝ :=
  Real.sqrt (npMeanR (l.map (fun x => (x - npMeanR l) ^ 2)))

/-- `analyze_layout_consistency`.  Note the placement of the conditional in
the source: `1 - (std/mean if mean > 0 else 0)`, so a zero mean yields
`1 - 0`, and the result is then clamped to [0, 1]. -/
noncomputable def analyze_layout_consistency (img : List (List ℕ)) : ℝ :=
  let densities := quadDensities img
  let consistency :=
    1 - (if 0 < npMeanR densities then npStdR densities / npMeanR densities else 0)
  min 1 (max 0 consistency)

def colorAnomaly : String := "Unusual color concentration detected"
def copyPasteAnomaly : String := "High number of similar features (possible copy-paste)"

/-- `detect_visual_anomalies`, with the black-box histogram statistics
(`np.max(hist)`, `np.mean(hist)`) and keypoint count as inputs. -/
def detect_visual_anomalies (histMax histMean : ℚ) (kpCount : ℕ) : List String :=
  (if histMean * 10 < histMax then [colorAnomaly] else []) ++
  (if 500 < kpCount then [copyPasteAnomaly] else [])

/-- The dictionary returned by `extract_visual_features`: both failure
shapes omit most keys, so every field is optional. -/
structure VisualFeatures where
  error : Option String := none
  signatures_detected : Option ℕ := none
  stamps_detected : Option ℕ := none
  layout_consistency_score : Option ℝ := none
  visual_risk_score : Option ℕ := none
  anomalies : Option (List String) := none

/-- The outcome of the rendering/detection pipeline inside the `try` block
of `extract_visual_features`: an exception anywhere in it (rendering or a
detector), an empty image list from `convert_from_path`, or a first page
with its black-box detector outputs. -/
inductive VisualInput where
  | renderError (msg : String)
  | noImages
  | page (img : List (List ℕ)) (contours : List Contour)
      (circles : Option (List (ℕ × ℕ × ℕ))) (histMax histMean : ℚ) (kpCount : ℕ)

/-- The visual-risk accumulation of `extract_visual_features`: +30 for zero
signature regions, +20 for more than 2 stamp regions, +25 for layout
consistency below 0.7. -/
noncomputable def visualRisk (nSignatures nStamps : ℕ) (layout_score : ℝ) : ℕ :=
  (if nSignatures = 0 then 30 else 0) +
  (if 2 < nStamps then 20 else 0) +
  (if layout_score < 0.7 then 25 else 0)

/-- Python's `round(x, 2)` (numpy rounds exact midpoints to even, Mathlib's
`round` rounds them up; no claim depends on this stored field). -/
noncomputable def roundTo2 (x : ℝ) : ℝ := ((round (x * 100) : ℤ) : ℝ) / 100

/-- `extract_visual_features`. -/
noncomputable def extract_visual_features (input : VisualInput) : VisualFeatures :=
  match input with
  | .noImages => { error := some "Could not convert PDF to image" }
  | .renderError msg => { error := some msg, visual_risk_score := some 50 }
  | .page img contours circles histMax histMean kpCount =>
    let signatures := detect_signature_regions contours
    let stamps := detect_stamp_regions circles
    let layout_score := analyze_layout_consistency img
    { signatures_detected := some signatures.length,
      stamps_detected := some stamps.length,
      layout_consistency_score := some (roundTo2 layout_score),
      visual_risk_score := some (visualRisk signatures.length stamps.length layout_score),
      anomalies := some (detect_visual_anomalies histMax histMean kpCount) }

/-- `calculate_combined_risk` (the multimodal text dictionary always has
its keys, so its `.get` defaults are modelled by plain field access; the
visual dictionary's optional keys keep their `.get` defaults). -/
def calculate_combined_risk (text_features : TextFeatures) (visual_features : VisualFeatures) : ℚ :=
  let text_score : ℚ := (text_features.text_risk_score : ℚ)
  let visual_score : ℚ := ((visual_features.visual_risk_score.getD 0 : ℕ) : ℚ)
  let combined := text_score * 0.6 + visual_score * 0.4
  let combined :=
    if visual_features.signatures_detected.getD 0 = 0 then combined + 10 else combined
  let combined :=
    if 3 < text_features.monetary_amounts.length then combined + 5 else combined
  min 100 combined

def recHighM : String := "⚠️ HIGH RISK: Recommend legal review before signing"
def recMedM : String := "⚡ MEDIUM RISK: Review highlighted sections carefully"
def recLowM : String := "✅ LOW RISK: Standard document, safe to proceed"
def recNoSig : String := "📝 No signatures detected - ensure proper signing"
def recSections : String := "🔍 Review high-risk sections for unfavorable terms"
def recAnomalies : String := "🚨 Visual anomalies detected - verify document authenticity"

/-- The multimodal `generate_recommendations`, reading the accumulated
results dictionary (combined score, text analysis, visual analysis). -/
def generate_recommendations (combined_risk_score : ℚ) (text_analysis : TextFeatures)
    (visual_analysis : VisualFeatures) : List String :=
  let recs : List String := []
  let recs :=
    if 70 ≤ combined_risk_score then recs ++ [recHighM]
    else if 40 ≤ combined_risk_score then recs ++ [recMedM]
    else recs ++ [recLowM]
  let recs :=
    recs ++ (if visual_analysis.signatures_detected.getD 0 = 0 then [recNoSig] else [])
  let recs :=
    recs ++ (if 0 < text_analysis.high_risk_sections.length then [recSections] else [])
  let recs :=
    recs ++ (if ¬(visual_analysis.anomalies.getD []).isEmpty then [recAnomalies] else [])
  recs

/-- The result dictionary of the multimodal `analyze_document` (filename
and timestamp are I/O plumbing and omitted). -/
structure AnalysisResult where
  text_analysis : TextFeatures
  visual_analysis : VisualFeatures
  combined_risk_score : ℚ
  recommendations : List String

/-- The multimodal `analyze_document`: text extraction, visual extraction,
combination, recommendations. -/
noncomputable def analyze_document (pages : List String) (vin : VisualInput) : AnalysisResult :=
  let text_features := extract_text_features pages
  let visual_features := extract_visual_features vin
  let combined := calculate_combined_risk text_features visual_features
  { text_analysis := text_features, visual_analysis := visual_features,
    combined_risk_score := combined,
    recommendations := generate_recommendations combined text_features visual_features }

end Multi

/-! ### Claim-shaped specifications

These definitions transcribe what the spec's sentences state, so that the
source-shaped definitions above can be compared against them. -/

/-- The financial sub-score as the spec states it: `min(30, 5×len)`,
overridden to 30 when some amount contains "million" (case-insensitively)
or carries a literal "M" suffix. -/
def financialSpecAsWritten (ma : List String) : ℕ :=
  if ma.any (fun a => strContains (lowerStr a) "million" || strEndsWith a "M") then 30
  else min 30 (ma.length * 5)

/-- The financial sub-score as the code computes it: the override fires when
"million" occurs case-insensitively or the character "M" occurs anywhere
(case-sensitively), not only as a suffix. -/
def financialSpecAmended (ma : List String) : ℕ :=
  if ma.any Simple.millionOrM then 30 else min 30 (ma.length * 5)

/-- The risk level as a pure function of the overall score, written from the
claim: HIGH at 70 and above, MEDIUM from 40 up to (excluding) 70, LOW
otherwise. -/
def riskLevelSpec (o : ℕ) : String :=
  if 70 ≤ o then "HIGH"
  else if 40 ≤ o ∧ o < 70 then "MEDIUM"
  else "LOW"

/-- The recommendation list as the claim states it: one leading line keyed
by the risk level, with ONLY the HIGH level adding a second line, followed
by the fixed-order advisories. -/
def recsSpecAsWritten (r : Simple.RiskScores) (ta : Simple.TextFeatures) : List String :=
  (if r.risk_level = "HIGH" then [Simple.recHigh1, Simple.recHigh2]
   else if r.risk_level = "MEDIUM" then [Simple.recMed1]
   else [Simple.recLow])
  ++ (if 0 < r.signature_risk then [Simple.recSig] else [])
  ++ (if 20 ≤ r.financial_risk then [Simple.recFin] else [])
  ++ (if 15 ≤ r.compliance_risk then [Simple.recComp] else [])
  ++ (if 5 < (ta.high_risk_sections.getD []).length then [Simple.recSect] else [])
  ++ (if Simple.kbHas (ta.keyword_breakdown.getD []) "indemnify"
        || Simple.kbHas (ta.keyword_breakdown.getD []) "indemnification"
      then [Simple.recInd] else [])
  ++ (if Simple.kbHas (ta.keyword_breakdown.getD []) "termination" then [Simple.recTerm] else [])
  ++ (if Simple.kbHas (ta.keyword_breakdown.getD []) "confidential"
        || Simple.kbHas (ta.keyword_breakdown.getD []) "proprietary"
      then [Simple.recConf] else [])

/-- The recommendation list as the code produces it: identical to
`recsSpecAsWritten` except that the MEDIUM level also appends a second
fixed line ("consider consulting legal counsel"). -/
def recsSpecAmended (r : Simple.RiskScores) (ta : Simple.TextFeatures) : List String :=
  (if r.risk_level = "HIGH" then [Simple.recHigh1, Simple.recHigh2]
   else if r.risk_level = "MEDIUM" then [Simple.recMed1, Simple.recMed2]
   else [Simple.recLow])
  ++ (if 0 < r.signature_risk then [Simple.recSig] else [])
  ++ (if 20 ≤ r.financial_risk then [Simple.recFin] else [])
  ++ (if 15 ≤ r.compliance_risk then [Simple.recComp] else [])
  ++ (if 5 < (ta.high_risk_sections.getD []).length then [Simple.recSect] else [])
  ++ (if Simple.kbHas (ta.keyword_breakdown.getD []) "indemnify"
        || Simple.kbHas (ta.keyword_breakdown.getD []) "indemnification"
      then [Simple.recInd] else [])
  ++ (if Simple.kbHas (ta.keyword_breakdown.getD []) "termination" then [Simple.recTerm] else [])
  ++ (if Simple.kbHas (ta.keyword_breakdown.getD []) "confidential"
        || Simple.kbHas (ta.keyword_breakdown.getD []) "proprietary"
      then [Simple.recConf] else [])

/-! ### Concrete inputs used to exercise threshold boundaries -/

/-- 20 keyword hits (40) + four plain amounts (20) + no signature indicator
(10): overall exactly 70. -/
def taSeventy : Simple.TextFeatures :=
  { risk_keywords_found := some 20,
    monetary_amounts := some ["$100", "$200", "$300", "$400"] }

/-- 20 keyword hits (40), one signature indicator: overall exactly 40. -/
def taForty : Simple.TextFeatures :=
  { risk_keywords_found := some 20, signature_indicators := some 1 }

/-- 17 keyword hits (34) + one amount (5), one signature indicator: overall
exactly 39. -/
def taThirtyNine : Simple.TextFeatures :=
  { risk_keywords_found := some 17, monetary_amounts := some ["$50"],
    signature_indicators := some 1 }

/-- No signals at all except one signature indicator: overall exactly 0. -/
def taZero : Simple.TextFeatures := { signature_indicators := some 1 }

/-! ## Theorems for the claims -/

/-- Claim C4, counterexample.  The claim restricts the financial override to
a literal "M" suffix, but the source tests `'M' in amount`, i.e. an "M"
anywhere in the string: on the single amount "M5" the code yields 30 while
the claimed formula yields `min(30, 5×1) = 5`. -/
theorem C4_financial_override_counterexample :
    (Simple.assess_risks { monetary_amounts := some ["M5"] }).financial_risk = 30
    ∧ financialSpecAsWritten ["M5"] = 5 := by
  decide

/-- Claim C4, amended: the financial sub-score equals `min(30, 5×len)`,
overridden to exactly 30 when some amount contains "million"
(case-insensitively) or contains the character "M" anywhere
(case-sensitively); in particular four amounts, one containing "million",
give exactly 30. -/
theorem C4_financial_override_amended (ta : Simple.TextFeatures) :
    (Simple.assess_risks ta).financial_risk = financialSpecAmended (ta.monetary_amounts.getD [])
    ∧ (Simple.assess_risks
        { monetary_amounts := some ["$100", "$250", "$75", "2 million"] }).financial_risk = 30 := by
  constructor
  · cases hma : ta.monetary_amounts.getD [] with
    | nil => simp [Simple.assess_risks, financialSpecAmended, hma]
    | cons a l => simp [Simple.assess_risks, financialSpecAmended, hma]
  · decide

/-- Claim C5: in detailed (text-only) mode every sub-score respects its cap
(40/30/20/10), every sub-score is non-negative, and the overall score is the
plain sum of the four, hence in [0, 100]. -/
theorem C5_subscore_caps (ta : Simple.TextFeatures) :
    (Simple.assess_risks ta).keyword_risk ≤ 40
    ∧ (Simple.assess_risks ta).financial_risk ≤ 30
    ∧ (Simple.assess_risks ta).compliance_risk ≤ 20
    ∧ (Simple.assess_risks ta).signature_risk ≤ 10
    ∧ 0 ≤ (Simple.assess_risks ta).keyword_risk
    ∧ 0 ≤ (Simple.assess_risks ta).financial_risk
    ∧ 0 ≤ (Simple.assess_risks ta).compliance_risk
    ∧ 0 ≤ (Simple.assess_risks ta).signature_risk
    ∧ (Simple.assess_risks ta).overall_risk
        = (Simple.assess_risks ta).keyword_risk + (Simple.assess_risks ta).financial_risk
          + (Simple.assess_risks ta).compliance_risk + (Simple.assess_risks ta).signature_risk
    ∧ (Simple.assess_risks ta).overall_risk ≤ 100 := by
  have hk : (Simple.assess_risks ta).keyword_risk ≤ 40 := by
    simp only [Simple.assess_risks]
    exact inf_le_left
  have hf : (Simple.assess_risks ta).financial_risk ≤ 30 := by
    simp only [Simple.assess_risks]
    split_ifs <;> first | exact inf_le_left | omega
  have hc : (Simple.assess_risks ta).compliance_risk ≤ 20 := by
    simp only [Simple.assess_risks]
    exact inf_le_left
  have hs : (Simple.assess_risks ta).signature_risk ≤ 10 := by
    simp only [Simple.assess_risks]
    split_ifs <;> omega
  have heq : (Simple.assess_risks ta).overall_risk
      = (Simple.assess_risks ta).keyword_risk + (Simple.assess_risks ta).financial_risk
        + (Simple.assess_risks ta).compliance_risk + (Simple.assess_risks ta).signature_risk := by
    simp only [Simple.assess_risks]
  exact ⟨hk, hf, hc, hs, Nat.zero_le _, Nat.zero_le _, Nat.zero_le _, Nat.zero_le _, heq,
    by omega⟩

/-- Claim C6: the discrete risk level is a pure threshold function of the
overall score (HIGH at 70 and above, MEDIUM in [40, 70), LOW below 40), and
the boundary values 70, 40, 39 and 0 are realized by concrete inputs with
levels HIGH, MEDIUM, LOW and LOW respectively. -/
theorem C6_risk_level_thresholds :
    (∀ ta, (Simple.assess_risks ta).risk_level
        = riskLevelSpec (Simple.assess_risks ta).overall_risk)
    ∧ (Simple.assess_risks taSeventy).overall_risk = 70
    ∧ (Simple.assess_risks taSeventy).risk_level = "HIGH"
    ∧ (Simple.assess_risks taForty).overall_risk = 40
    ∧ (Simple.assess_risks taForty).risk_level = "MEDIUM"
    ∧ (Simple.assess_risks taThirtyNine).overall_risk = 39
    ∧ (Simple.assess_risks taThirtyNine).risk_level = "LOW"
    ∧ (Simple.assess_risks taZero).overall_risk = 0
    ∧ (Simple.assess_risks taZero).risk_level = "LOW" := by
  refine ⟨fun ta => ?_, by decide, by decide, by decide, by decide, by decide, by decide,
    by decide, by decide⟩
  simp only [Simple.assess_risks, riskLevelSpec]
  split_ifs <;> first | rfl | omega

/-- Claim C3, counterexample.  The claim asserts that an unparsable PDF
aborts the analysis with no partial result, but in the simplified analyzer
`extract_text_features` catches the failure (returning an error dictionary
with `risk_keywords_found = 0`) and `analyze_document` still builds a
complete `AnalysisResult`: a risk assessment (overall 10, level LOW, from
the no-signature default) and a recommendation list. -/
theorem C3_parse_failure_counterexample :
    (Simple.analyze_document (.parseError "EOF marker not found")).text_analysis.error
      = some "EOF marker not found"
    ∧ (Simple.analyze_document (.parseError "EOF marker not found")).risk_assessment
      = { keyword_risk := 0, financial_risk := 0, compliance_risk := 0, signature_risk := 10,
          overall_risk := 10, risk_level := "LOW" }
    ∧ (Simple.analyze_document (.parseError "EOF marker not found")).recommendations
      = [Simple.recLow, Simple.recSig] := by
  decide

/-- Claim C3, amended: in the simplified analyzer a parse failure does not
propagate — both metadata and text extraction absorb it into error
dictionaries, and a complete `AnalysisResult` is produced for the document,
with the fixed degraded risk assessment and recommendations below. -/
theorem C3_parse_failure_amended (msg : String) :
    Simple.analyze_document (.parseError msg)
      = { metadata := { error := some msg },
          text_analysis := { error := some msg, risk_keywords_found := some 0 },
          risk_assessment :=
            { keyword_risk := 0, financial_risk := 0, compliance_risk := 0,
              signature_risk := 10, overall_risk := 10, risk_level := "LOW" },
          recommendations := [Simple.recLow, Simple.recSig] } := by
  rfl

/-- Claim C8, counterexample.  The claim says only the HIGH level appends a
second leading line, but the source also appends a second fixed line for
MEDIUM ("consider consulting legal counsel"): on a MEDIUM input the code's
list differs from the claimed shape. -/
theorem C8_recommendations_counterexample :
    Simple.generate_recommendations (Simple.assess_risks taForty) taForty
      = [Simple.recMed1, Simple.recMed2]
    ∧ recsSpecAsWritten (Simple.assess_risks taForty) taForty = [Simple.recMed1]
    ∧ Simple.generate_recommendations (Simple.assess_risks taForty) taForty
      ≠ recsSpecAsWritten (Simple.assess_risks taForty) taForty := by
  decide

/-- Claim C8, amended: the recommendation list begins with the line keyed by
the risk level, HIGH and MEDIUM each appending a second fixed line, and the
remaining advisories follow in the fixed insertion order (signature,
financial ≥ 20, compliance ≥ 15, section count > 5, then the
indemnify / termination / confidential-or-proprietary keyword lines). -/
theorem C8_recommendations_amended (r : Simple.RiskScores) (ta : Simple.TextFeatures) :
    Simple.generate_recommendations r ta = recsSpecAmended r ta
    ∧ (Simple.generate_recommendations r ta).head?
      = some (if r.risk_level = "HIGH" then Simple.recHigh1
              else if r.risk_level = "MEDIUM" then Simple.recMed1
              else Simple.recLow) := by
  constructor
  · simp only [Simple.generate_recommendations, recsSpecAmended]
    split_ifs <;> rfl
  · simp only [Simple.generate_recommendations]
    split_ifs <;> rfl

/-- Claim C9: the high-risk-section extraction performs the phrase-pattern
pass and then the paragraph pass, truncating the concatenation to the first
10 sections; every phrase match yields a HIGH section whose context is the
(stripped) ±100-character window; every blank-line paragraph with at least
3 distinct keyword hits yields a section whose severity is MEDIUM below 5
hits and HIGH at 5 or more, with the 300-character ellipsis truncation; and
every pass-2 section arises from such a paragraph. -/
theorem C9_high_risk_sections (text : String) :
    Simple.find_high_risk_sections text
      = (Simple.hrsPass1 text ++ Simple.hrsPass2 text).take 10
    ∧ (Simple.find_high_risk_sections text).length ≤ 10
    ∧ (∀ pr ∈ Simple.high_risk_patterns, ∀ ab ∈ finditer pr.2 text,
        ({ pattern := pr.1,
           context := pyStrip (sliceStr text (ab.1 - 100) (min text.length (ab.2 + 100))),
           risk_level := "HIGH" } : Simple.RiskSection) ∈ Simple.hrsPass1 text)
    ∧ (∀ s ∈ Simple.hrsPass1 text, s.risk_level = "HIGH")
    ∧ (∀ para ∈ pySplitOn "\n\n" text, 3 ≤ Simple.kwDistinct para →
        ({ pattern := toString (Simple.kwDistinct para) ++ " risk keywords",
           context := if 300 < para.length then String.mk (para.toList.take 300) ++ "..."
                      else para,
           risk_level := if Simple.kwDistinct para < 5 then "MEDIUM" else "HIGH" } :
          Simple.RiskSection) ∈ Simple.hrsPass2 text)
    ∧ (∀ s ∈ Simple.hrsPass2 text, ∃ para ∈ pySplitOn "\n\n" text,
        3 ≤ Simple.kwDistinct para
        ∧ s.pattern = toString (Simple.kwDistinct para) ++ " risk keywords"
        ∧ s.risk_level = (if Simple.kwDistinct para < 5 then "MEDIUM" else "HIGH")
        ∧ s.context = (if 300 < para.length then String.mk (para.toList.take 300) ++ "..."
                       else para)) := by
  refine ⟨rfl, ?_, ?_, ?_, ?_, ?_⟩
  · simp only [Simple.find_high_risk_sections, List.length_take]
    exact min_le_left _ _
  · intro pr hpr ab hab
    exact List.mem_flatMap.mpr ⟨pr, hpr, List.mem_map.mpr ⟨ab, hab, rfl⟩⟩
  · intro s hs
    obtain ⟨pr, _, hm⟩ := List.mem_flatMap.mp hs
    obtain ⟨ab, _, rfl⟩ := List.mem_map.mp hm
    rfl
  · intro para hpara h3
    refine List.mem_filterMap.mpr ⟨para, hpara, ?_⟩
    simp only [h3, if_true]
  · intro s hs
    obtain ⟨para, hpara, heq⟩ := List.mem_filterMap.mp hs
    by_cases h3 : 3 ≤ Simple.kwDistinct para
    · refine ⟨para, hpara, h3, ?_⟩
      simp only [h3, if_true] at heq
      obtain rfl := Option.some_injective _ heq
      exact ⟨rfl, rfl, rfl⟩
    · simp only [h3, if_false] at heq
      exact absurd heq (by simp)

/-- Claim C9, witness: on the concrete text "unlimited liability" the first
high-risk pattern matches at span (0, 19), and the theorem produces the
corresponding HIGH section in the first pass. -/
theorem C9_high_risk_sections_witness :
    (0, 19) ∈ finditer (phraseRe ["unlimited", "liability"]) "unlimited liability"
    ∧ ({ pattern := "unlimited\\s+liability",
         context := pyStrip (sliceStr "unlimited liability" 0
           (min "unlimited liability".length (19 + 100))),
         risk_level := "HIGH" } : Simple.RiskSection) ∈ Simple.hrsPass1 "unlimited liability" :=
  ⟨by decide,
   (C9_high_risk_sections "unlimited liability").2.2.1
     ("unlimited\\s+liability", phraseRe ["unlimited", "liability"]) (List.Mem.head _)
     (0, 19) (by decide)⟩

/-- On the all-white 2×2 page every pixel exceeds the binarization
threshold, so every quadrant density — and hence their mean — is zero. -/
theorem whiteMeanZero :
    Multi.npMeanR (Multi.quadDensities [[255, 255], [255, 255]]) = 0 := by
  norm_num [Multi.npMeanR, Multi.quadDensities, Multi.thresholdBinaryInv, Multi.subMat,
    Multi.matMean]

/-- Claim C1, counterexample.  On a degenerate page whose four quadrant
densities are all 0 (an all-white 2×2 image), the conditional in the source
replaces only the subtracted ratio by 0, so the consistency score is 1, not
0 as the claim states. -/
theorem C1_layout_degenerate_counterexample :
    Multi.analyze_layout_consistency [[255, 255], [255, 255]] = 1
    ∧ Multi.analyze_layout_consistency [[255, 255], [255, 255]] ≠ 0 := by
  have h1 : Multi.analyze_layout_consistency [[255, 255], [255, 255]] = 1 := by
    simp only [Multi.analyze_layout_consistency, whiteMeanZero]
    norm_num
  exact ⟨h1, by rw [h1]; exact one_ne_zero⟩

/-- Claim C1, amended: the layout-consistency computation always returns a
value in [0, 1] (hence never NaN or negative), and it never divides by a
zero mean — but in the degenerate zero-mean-density case the ratio term is
skipped and the score is 1, not 0. -/
theorem C1_layout_consistency_amended (img : List (List ℕ)) :
    (0 ≤ Multi.analyze_layout_consistency img ∧ Multi.analyze_layout_consistency img ≤ 1)
    ∧ (Multi.npMeanR (Multi.quadDensities img) = 0 →
        Multi.analyze_layout_consistency img = 1) := by
  refine ⟨⟨?_, ?_⟩, ?_⟩
  · simp only [Multi.analyze_layout_consistency]
    exact le_min (by norm_num) (le_max_left _ _)
  · simp only [Multi.analyze_layout_consistency]
    exact min_le_left _ _
  · intro h
    simp only [Multi.analyze_layout_consistency, h]
    norm_num

/-- Claim C1, witness for the amended theorem: the all-white 2×2 page has
zero mean density and consistency score exactly 1. -/
theorem C1_layout_consistency_witness :
    Multi.npMeanR (Multi.quadDensities [[255, 255], [255, 255]]) = 0
    ∧ Multi.analyze_layout_consistency [[255, 255], [255, 255]] = 1 :=
  ⟨whiteMeanZero, (C1_layout_consistency_amended [[255, 255], [255, 255]]).2 whiteMeanZero⟩

/-- Claim C2, counterexample.  When rendering returns no image at all, the
source returns `{'error': ...}` WITHOUT the `visual_risk_score` key, so the
fallback score is not 50 in that failure case (downstream `.get` treats it
as 0). -/
theorem C2_visual_fallback_counterexample :
    (Multi.extract_visual_features Multi.VisualInput.noImages).visual_risk_score ≠ some 50
    ∧ (Multi.extract_visual_features Multi.VisualInput.noImages).visual_risk_score = none
    ∧ (Multi.extract_visual_features Multi.VisualInput.noImages).error
      = some "Could not convert PDF to image" := by
  refine ⟨?_, rfl, rfl⟩
  simp [Multi.extract_visual_features]

/-- Claim C2, amended: an exception anywhere in the rendering/detection
pipeline is caught and converted into a `VisualFeatures` with the error
field set and `visual_risk_score` exactly 50; the empty-rendering case also
sets the error field but omits the score; in both cases the overall
analysis proceeds and still produces recommendations. -/
theorem C2_visual_fallback_amended (msg : String) (pages : List String) :
    Multi.extract_visual_features (.renderError msg)
      = { error := some msg, visual_risk_score := some 50 }
    ∧ (Multi.extract_visual_features .noImages).error = some "Could not convert PDF to image"
    ∧ (Multi.extract_visual_features .noImages).visual_risk_score = none
    ∧ (Multi.analyze_document pages (.renderError msg)).visual_analysis.error = some msg
    ∧ (Multi.analyze_document pages (.renderError msg)).recommendations ≠ []
    ∧ (Multi.analyze_document pages .noImages).recommendations ≠ [] := by
  refine ⟨rfl, rfl, rfl, rfl, ?_, ?_⟩ <;>
  · simp only [Multi.analyze_document, Multi.generate_recommendations]
    split_ifs <;> simp

/-- Closed form of `calculate_combined_risk`: the two conditional penalties
pulled out of the accumulation. -/
theorem calculate_combined_risk_closed_form (t : Multi.TextFeatures)
    (v : Multi.VisualFeatures) :
    Multi.calculate_combined_risk t v
      = min 100 ((t.text_risk_score : ℚ) * 0.6
          + ((v.visual_risk_score.getD 0 : ℕ) : ℚ) * 0.4
          + (if v.signatures_detected.getD 0 = 0 then 10 else 0)
          + (if 3 < t.monetary_amounts.length then 5 else 0)) := by
  simp only [Multi.calculate_combined_risk]
  congr 1
  split_ifs <;> ring

/-- Claim C7: the visual risk score accumulates +30 for zero signature
regions, +20 for more than 2 stamp regions and +25 for layout consistency
below 0.7 (so 0 signatures, 3 stamps and consistency 0.5 give exactly 75),
and the combined score is `min(100, 0.6·min(100, 5·keywords) + 0.4·visual
+ 10·[no signatures] + 5·[more than 3 amounts])`. -/
theorem C7_combined_mode_formula :
    Multi.visualRisk 0 3 (0.5 : ℝ) = 75
    ∧ (∀ img contours circles histMax histMean kpCount,
        (Multi.extract_visual_features
            (.page img contours circles histMax histMean kpCount)).visual_risk_score
          = some (Multi.visualRisk (Multi.detect_signature_regions contours).length
              (Multi.detect_stamp_regions circles).length
              (Multi.analyze_layout_consistency img)))
    ∧ (∀ pages vf,
        Multi.calculate_combined_risk (Multi.extract_text_features pages) vf
          = min 100
              (((min 100 (5 * (Multi.extract_text_features pages).risk_keywords_found) : ℕ) : ℚ) * 0.6
                + ((vf.visual_risk_score.getD 0 : ℕ) : ℚ) * 0.4
                + (if vf.signatures_detected.getD 0 = 0 then 10 else 0)
                + (if 3 < (Multi.extract_text_features pages).monetary_amounts.length
                   then 5 else 0))) := by
  refine ⟨?_, fun img contours circles histMax histMean kpCount => rfl, fun pages vf => ?_⟩
  · simp only [Multi.visualRisk]
    norm_num
  · have hts : (Multi.extract_text_features pages).text_risk_score
        = min 100 (5 * (Multi.extract_text_features pages).risk_keywords_found) := by
      simp only [Multi.extract_text_features]
      rw [Nat.mul_comm]
    rw [calculate_combined_risk_closed_form, hts]

/-- Claim C10: the error-state `VisualFeatures` carries no
signatures-detected field, so the combined risk calculation treats the
signature count as 0 and always adds the flat +10 penalty (on top of the
0.4-weighted fallback score of 50 for exceptions, or 0 for the no-image
case), and the recommendation generator always emits the "no signatures
detected" advisory, whatever the document actually shows. -/
theorem C10_degraded_visual_penalty (tf : Multi.TextFeatures) (msg : String) (crs : ℚ) :
    (Multi.extract_visual_features (.renderError msg)).signatures_detected = none
    ∧ (Multi.extract_visual_features .noImages).signatures_detected = none
    ∧ Multi.calculate_combined_risk tf (Multi.extract_visual_features (.renderError msg))
      = min 100 ((tf.text_risk_score : ℚ) * 0.6 + 50 * 0.4 + 10
          + (if 3 < tf.monetary_amounts.length then 5 else 0))
    ∧ Multi.calculate_combined_risk tf (Multi.extract_visual_features .noImages)
      = min 100 ((tf.text_risk_score : ℚ) * 0.6 + 0 * 0.4 + 10
          + (if 3 < tf.monetary_amounts.length then 5 else 0))
    ∧ Multi.recNoSig
      ∈ Multi.generate_recommendations crs tf (Multi.extract_visual_features (.renderError msg))
    ∧ Multi.recNoSig
      ∈ Multi.generate_recommendations crs tf (Multi.extract_visual_features .noImages) := by
  refine ⟨rfl, rfl, ?_, ?_, ?_, ?_⟩
  · rw [calculate_combined_risk_closed_form]
    norm_num [Multi.extract_visual_features]
  · rw [calculate_combined_risk_closed_form]
    norm_num [Multi.extract_visual_features]
  · simp [Multi.generate_recommendations, Multi.extract_visual_features]
  · simp [Multi.generate_recommendations, Multi.extract_visual_features]

end PdfRisk
